import Mathlib

set_option maxRecDepth 10000

/-!
Verification development for the trading bot repository
(`trading_bot.py`, `trading_bot_simulation.py`).

The Python code computes indicators with pandas/numpy floating point,
where a division by zero silently produces `inf`, `-inf` or `NaN`
(numpy never raises), and comparisons against `NaN` are `False`.
We shallow-embed these numerics with `PFloat`: an extended rational
with explicit `nan`, `inf` and `ninf` values following the IEEE rules
the Python code actually exercises.  (IEEE signed zero is irrelevant
here: the only denominators that can be a negative zero are the RSI
average-loss column, and `100 - 100/(1 + g/(-0.0))` and
`100 - 100/(1 + g/(+0.0))` produce the same three outcomes
`100`/`100`/`NaN` for `g > 0` on either sign of zero, so we model a
single unsigned zero.)

Market data (prices, volumes) and the capital ledger are exact
rationals: the bot's ledger arithmetic involves no indeterminate forms
on the inputs the claims quantify over.
-/

namespace TradingBotSpec

/-- A pandas/numpy double as the Python code uses it: a finite rational,
one of the two infinities, or `NaN`. -/
inductive PFloat where
  | nan : PFloat
  | inf : PFloat
  | ninf : PFloat
  | fin : ℚ → PFloat
deriving DecidableEq, Repr

namespace PFloat

/-- IEEE negation. -/
def neg : PFloat → PFloat
  | nan => nan
  | inf => ninf
  | ninf => inf
  | fin a => fin (-a)

/-- IEEE addition (`inf + -inf = NaN`). -/
def add : PFloat → PFloat → PFloat
  | nan, _ => nan
  | _, nan => nan
  | inf, ninf => nan
  | inf, _ => inf
  | ninf, inf => nan
  | ninf, _ => ninf
  | fin _, inf => inf
  | fin _, ninf => ninf
  | fin a, fin b => fin (a + b)

/-- IEEE subtraction. -/
def sub (x y : PFloat) : PFloat := add x (neg y)

/-- IEEE multiplication (`inf * 0 = NaN`). -/
def mul : PFloat → PFloat → PFloat
  | nan, _ => nan
  | _, nan => nan
  | inf, inf => inf
  | inf, ninf => ninf
  | ninf, inf => ninf
  | ninf, ninf => inf
  | inf, fin b => if 0 < b then inf else if b < 0 then ninf else nan
  | fin a, inf => if 0 < a then inf else if a < 0 then ninf else nan
  | ninf, fin b => if 0 < b then ninf else if b < 0 then inf else nan
  | fin a, ninf => if 0 < a then ninf else if a < 0 then inf else nan
  | fin a, fin b => fin (a * b)

/-- IEEE division with an unsigned zero: `x/0` is `inf`, `-inf` or `NaN`
according to the sign of `x`; `inf/inf = NaN`; `x/inf = 0`. -/
def div : PFloat → PFloat → PFloat
  | nan, _ => nan
  | _, nan => nan
  | inf, inf => nan
  | inf, ninf => nan
  | ninf, inf => nan
  | ninf, ninf => nan
  | inf, fin b => if b < 0 then ninf else inf
  | ninf, fin b => if b < 0 then inf else ninf
  | fin _, inf => fin 0
  | fin _, ninf => fin 0
  | fin a, fin b =>
      if b = 0 then (if 0 < a then inf else if a < 0 then ninf else nan)
      else fin (a / b)

/-- IEEE absolute value. -/
def abs : PFloat → PFloat
  | nan => nan
  | inf => inf
  | ninf => inf
  | fin a => fin |a|

/-- IEEE strict less-than: any comparison involving `NaN` is `false`. -/
def blt : PFloat → PFloat → Bool
  | nan, _ => false
  | _, nan => false
  | ninf, ninf => false
  | ninf, _ => true
  | _, ninf => false
  | inf, _ => false
  | fin _, inf => true
  | fin a, fin b => decide (a < b)

/-- IEEE less-or-equal: any comparison involving `NaN` is `false`. -/
def ble : PFloat → PFloat → Bool
  | nan, _ => false
  | _, nan => false
  | ninf, _ => true
  | inf, inf => true
  | inf, _ => false
  | fin _, ninf => false
  | fin _, inf => true
  | fin a, fin b => decide (a ≤ b)

/-- Membership in a closed rational interval; `NaN` and the infinities
are outside every interval. -/
def memIcc (lo hi : ℚ) : PFloat → Bool
  | fin q => decide (lo ≤ q ∧ q ≤ hi)
  | _ => false

/-- Sum of a list of `PFloat`s, folded left as pandas sums a window. -/
def sumList (xs : List PFloat) : PFloat := xs.foldl add (fin 0)

end PFloat

/-! ## Candle series

One OHLCV sample.  The Python dataframe also carries `timestamp` and
`open` columns, but neither is read by `calculate_indicators` nor by any
strategy function (`timestamp` is only reformatted for display), so they
are not part of the embedding. -/

structure Candle where
  high : ℚ
  low : ℚ
  close : ℚ
  volume : ℚ
deriving DecidableEq, Repr

/-- Out-of-range default (indices used by the code are always in range;
the default is the degenerate all-zero candle). -/
def dfltCandle : Candle := ⟨0, 0, 0, 0⟩

def highAt (df : List Candle) (i : ℕ) : ℚ := (df.getD i dfltCandle).high
def lowAt (df : List Candle) (i : ℕ) : ℚ := (df.getD i dfltCandle).low
def closeAt (df : List Candle) (i : ℕ) : ℚ := (df.getD i dfltCandle).close
def volumeAt (df : List Candle) (i : ℕ) : ℚ := (df.getD i dfltCandle).volume

/-! ## Rolling windows

pandas `rolling(window=w)` uses `min_periods = w`: the first `w - 1`
rows are `NaN`, afterwards the statistic is taken over rows
`i - w + 1 .. i`. -/

/-- Indices of the trailing window of width `w` ending at row `i`
(meaningful when `w ≤ i + 1`). -/
def windowIdx (w i : ℕ) : List ℕ := (List.range w).map (fun j => i + 1 - w + j)

/-- pandas `rolling(w).mean()` of a `NaN`-free rational column. -/
def rollMeanQ (g : ℕ → ℚ) (w i : ℕ) : PFloat :=
  if w ≤ i + 1 then .fin ((((windowIdx w i).map g).sum) / (w : ℚ)) else .nan

/-- pandas `rolling(w).min()` of a `NaN`-free rational column. -/
def rollMinQ (g : ℕ → ℚ) (w i : ℕ) : PFloat :=
  if w ≤ i + 1 then .fin (((windowIdx w i).map g).foldl min (g (i + 1 - w))) else .nan

/-- pandas `rolling(w).max()` of a `NaN`-free rational column. -/
def rollMaxQ (g : ℕ → ℚ) (w i : ℕ) : PFloat :=
  if w ≤ i + 1 then .fin (((windowIdx w i).map g).foldl max (g (i + 1 - w))) else .nan

/-- pandas `rolling(w).mean()` of a column that may contain `NaN`/infinities
(pandas propagates a `NaN` anywhere in the window to the result). -/
def rollMeanP (g : ℕ → PFloat) (w i : ℕ) : PFloat :=
  if w ≤ i + 1 then PFloat.div (PFloat.sumList ((windowIdx w i).map g)) (.fin (w : ℚ))
  else .nan

/-! ## Indicator engine (`calculate_indicators`)

Each dataframe column becomes a function of the row index.  `ewm(span,
adjust=False).mean()` is the recurrence seeded with the first value;
`diff()` yields `NaN` at row 0, and `.where(cond, 0)` maps that `NaN`
to `0` (a `NaN` condition selects the replacement), so the gain/loss
and directional-movement columns are `NaN`-free rationals. -/

/-- The recurrence `close.ewm(span, adjust=False).mean()` with smoothing `a = 2/(span+1)`. -/
def emaAt (a : ℚ) (df : List Candle) : ℕ → ℚ
  | 0 => closeAt df 0
  | i + 1 => (1 - a) * emaAt a df i + a * closeAt df (i + 1)

def ema20At (df : List Candle) (i : ℕ) : ℚ := emaAt (2 / 21) df i
def ema50At (df : List Candle) (i : ℕ) : ℚ := emaAt (2 / 51) df i
def ema200At (df : List Candle) (i : ℕ) : ℚ := emaAt (2 / 201) df i

/-- Column `delta.where(delta > 0, 0)`: the positive part of the close delta. -/
def gainAt (df : List Candle) (i : ℕ) : ℚ :=
  if i = 0 then 0 else max (closeAt df i - closeAt df (i - 1)) 0

/-- Column `-delta.where(delta < 0, 0)`: the positive part of the negated delta. -/
def lossAt (df : List Candle) (i : ℕ) : ℚ :=
  if i = 0 then 0 else max (closeAt df (i - 1) - closeAt df i) 0

def avgGainAt (df : List Candle) (i : ℕ) : PFloat := rollMeanQ (gainAt df) 14 i
def avgLossAt (df : List Candle) (i : ℕ) : PFloat := rollMeanQ (lossAt df) 14 i

/-- Column `rs = gain / loss` (IEEE: `g/0` is `inf` for `g > 0`, `NaN` for `g = 0`). -/
def rsAt (df : List Candle) (i : ℕ) : PFloat :=
  PFloat.div (avgGainAt df i) (avgLossAt df i)

/-- Column `rsi = 100 - (100 / (1 + rs))`. -/
def rsiAt (df : List Candle) (i : ℕ) : PFloat :=
  PFloat.sub (.fin 100) (PFloat.div (.fin 100) (PFloat.add (.fin 1) (rsAt df i)))

def lowMinAt (df : List Candle) (i : ℕ) : PFloat := rollMinQ (lowAt df) 14 i
def highMaxAt (df : List Candle) (i : ℕ) : PFloat := rollMaxQ (highAt df) 14 i

/-- Column `stoch_k = 100 * ((close - low_min) / (high_max - low_min))`. -/
def stochKAt (df : List Candle) (i : ℕ) : PFloat :=
  PFloat.mul (.fin 100)
    (PFloat.div (PFloat.sub (.fin (closeAt df i)) (lowMinAt df i))
      (PFloat.sub (highMaxAt df i) (lowMinAt df i)))

/-- Column `stoch_d = stoch_k.rolling(3).mean()`. -/
def stochDAt (df : List Candle) (i : ℕ) : PFloat := rollMeanP (stochKAt df) 3 i

/-- Column `tr = high - low` (the code's rowwise `apply`). -/
def trAt (df : List Candle) (i : ℕ) : ℚ := highAt df i - lowAt df i

def atrAt (df : List Candle) (i : ℕ) : PFloat := rollMeanQ (trAt df) 14 i

/-- Column `plus_dm = high.diff().where(high.diff() > 0, 0)`. -/
def plusDMAt (df : List Candle) (i : ℕ) : ℚ :=
  if i = 0 then 0 else max (highAt df i - highAt df (i - 1)) 0

/-- Column `minus_dm = -low.diff().where(-low.diff() > 0, 0)`. -/
def minusDMAt (df : List Candle) (i : ℕ) : ℚ :=
  if i = 0 then 0 else max (lowAt df (i - 1) - lowAt df i) 0

/-- Column `plus_di = 100 * (plus_dm.rolling(14).mean() / atr)`. -/
def plusDIAt (df : List Candle) (i : ℕ) : PFloat :=
  PFloat.mul (.fin 100) (PFloat.div (rollMeanQ (plusDMAt df) 14 i) (atrAt df i))

/-- Column `minus_di = 100 * (minus_dm.rolling(14).mean() / atr)`. -/
def minusDIAt (df : List Candle) (i : ℕ) : PFloat :=
  PFloat.mul (.fin 100) (PFloat.div (rollMeanQ (minusDMAt df) 14 i) (atrAt df i))

/-- Column `dx = 100 * abs(plus_di - minus_di) / (plus_di + minus_di)`
(Python evaluates the product before the division). -/
def dxAt (df : List Candle) (i : ℕ) : PFloat :=
  PFloat.div (PFloat.mul (.fin 100) (PFloat.abs (PFloat.sub (plusDIAt df i) (minusDIAt df i))))
    (PFloat.add (plusDIAt df i) (minusDIAt df i))

/-- Column `adx = dx.rolling(14).mean()`. -/
def adxAt (df : List Candle) (i : ℕ) : PFloat := rollMeanP (dxAt df) 14 i

def volMaAt (df : List Candle) (i : ℕ) : PFloat := rollMeanQ (volumeAt df) 20 i

/-- Column `vol_ratio = volume / vol_ma`. -/
def volRatioAt (df : List Candle) (i : ℕ) : PFloat :=
  PFloat.div (.fin (volumeAt df i)) (volMaAt df i)

/-- One enriched dataframe row: the candle columns plus the derived
columns read by the strategy functions.  The purely intermediate
columns (`tr`, `atr`, `plus_dm`, …) are represented by the functions
above; no strategy reads them from the dataframe. -/
structure IndRow where
  high : ℚ
  low : ℚ
  close : ℚ
  volume : ℚ
  ema20 : ℚ
  ema50 : ℚ
  ema200 : ℚ
  rsi : PFloat
  stoch_k : PFloat
  stoch_d : PFloat
  adx : PFloat
  vol_ratio : PFloat
deriving DecidableEq, Repr

def dfltRow : IndRow :=
  { high := 0, low := 0, close := 0, volume := 0, ema20 := 0, ema50 := 0, ema200 := 0,
    rsi := .nan, stoch_k := .nan, stoch_d := .nan, adx := .nan, vol_ratio := .nan }

def mkRow (df : List Candle) (i : ℕ) : IndRow :=
  { high := highAt df i, low := lowAt df i, close := closeAt df i, volume := volumeAt df i,
    ema20 := ema20At df i, ema50 := ema50At df i, ema200 := ema200At df i,
    rsi := rsiAt df i, stoch_k := stochKAt df i, stoch_d := stochDAt df i,
    adx := adxAt df i, vol_ratio := volRatioAt df i }

/-- Function `calculate_indicators`: the enriched dataframe, row by row. -/
def calculate_indicators (df : List Candle) : List IndRow :=
  (List.range df.length).map (mkRow df)

/-! ## Strategy functions

`df.iloc[-k]` on a dataframe of `n` rows is row `n - k`. -/

def iloc (rows : List IndRow) (k : ℕ) : IndRow := rows.getD (rows.length - k) dfltRow

/-- Function `ada_rsi_signal`: RSI oversold-reversal entry / RSI > 60 exit. -/
def ada_rsi_signal (df : List IndRow) : Bool × Bool :=
  if df.length < 50 then (false, false)
  else
    let latest := iloc df 1
    let prev := iloc df 2
    let entry := PFloat.blt latest.rsi (.fin 35) &&
      PFloat.blt prev.rsi latest.rsi &&
      PFloat.blt (.fin (8 / 10)) (IndRow.vol_ratio latest) &&
      decide ((iloc df 10).ema50 < latest.ema20)
    let exit_signal := PFloat.blt (.fin 60) latest.rsi
    (entry, exit_signal)

/-- Function `sol_stoch_signal`: fresh stochastic upward crossover entry / %K > 80 exit. -/
def sol_stoch_signal (df : List IndRow) : Bool × Bool :=
  if df.length < 50 then (false, false)
  else
    let latest := iloc df 1
    let prev := iloc df 2
    let entry := PFloat.blt latest.stoch_k (.fin 30) &&
      PFloat.blt latest.stoch_d latest.stoch_k &&
      PFloat.ble prev.stoch_k prev.stoch_d &&
      decide (latest.ema50 < latest.ema20)
    let exit_signal := PFloat.blt (.fin 80) latest.stoch_k
    (entry, exit_signal)

/-- Function `xrp_adx_signal`: ADX breakout entry / ADX < 20 exit.
`df['high'].iloc[-21:-1].max()` is the maximum high over rows
`n - 21 .. n - 2`. -/
def xrp_adx_signal (df : List IndRow) : Bool × Bool :=
  if df.length < 50 then (false, false)
  else
    let latest := iloc df 1
    let prev_3 := iloc df 4
    let high_20 := ((List.range 20).map (fun j => (iloc df (21 - j)).high)).foldl max
      (iloc df 21).high
    let entry := PFloat.blt (.fin 25) latest.adx &&
      PFloat.blt (IndRow.adx prev_3) latest.adx &&
      decide (high_20 < latest.close)
    let exit_signal := PFloat.blt latest.adx (.fin 20)
    (entry, exit_signal)

/-! ## Configuration (`CONFIG`)

All three strategies are `enabled` in `CONFIG`, so the `enabled` guard
of `run_strategy` never skips; decimal settings are exact rationals. -/

inductive Strat where
  | ADA_RSI : Strat
  | SOL_STOCH : Strat
  | XRP_ADX : Strat
deriving DecidableEq, Repr

structure StratConfig where
  symbol : String
  leverage : ℚ
  position_size : ℚ
  stop_loss : ℚ
  take_profit : ℚ
  trailing_stop : ℚ
deriving DecidableEq, Repr

def stratConfig : Strat → StratConfig
  | .ADA_RSI =>
    { symbol := "ADA/USDT", leverage := 2, position_size := 0.25,
      stop_loss := 0.08, take_profit := 0.15, trailing_stop := 0.10 }
  | .SOL_STOCH =>
    { symbol := "SOL/USDT", leverage := 2, position_size := 0.25,
      stop_loss := 0.08, take_profit := 0.12, trailing_stop := 0.10 }
  | .XRP_ADX =>
    { symbol := "XRP/USDT", leverage := 2.5, position_size := 0.30,
      stop_loss := 0.10, take_profit := 0.20, trailing_stop := 0.12 }

def slippageRate : ℚ := 0.001
def feeRate : ℚ := 0.001
def initial_capital : ℚ := 10000

/-- The recorded `reason` strings of a close. -/
inductive ExitReason where
  | stop_loss : ExitReason
  | take_profit : ExitReason
  | trailing_stop : ExitReason
  | strategy_signal : ExitReason
deriving DecidableEq, Repr

/-- The `STRATEGY_FUNCTIONS` dispatch table. -/
def strategySignal : Strat → List IndRow → Bool × Bool
  | .ADA_RSI => ada_rsi_signal
  | .SOL_STOCH => sol_stoch_signal
  | .XRP_ADX => xrp_adx_signal

/-! ## Simulation bot (`SimulationTradingBot`)

State is the triple the methods mutate: `capital`, the
strategy-to-position map, and the trade list.  Wall-clock fields
(`entry_time`, `exit_time`) are not modelled; nothing computes with
them.  A data-fetch outcome is `Option (List Candle)` (`None` on a
fetch error, mirroring `fetch_data`). -/

namespace SimulationTradingBot

structure Position where
  symbol : String
  entry_price : ℚ
  amount : ℚ
  leverage : ℚ
  stop_loss : ℚ
  take_profit : ℚ
  highest_price : ℚ
  entry_fee : ℚ
deriving DecidableEq, Repr

structure Trade where
  strategy : Strat
  symbol : String
  entry_price : ℚ
  exit_price : ℚ
  pnl_pct : ℚ
  pnl_usd : ℚ
  fees : ℚ
  reason : ExitReason
deriving DecidableEq, Repr

structure State where
  capital : ℚ
  positions : Strat → Option Position
  trades : List Trade

def initState : State :=
  { capital := initial_capital, positions := fun _ => none, trades := [] }

def simulate_entry_price (current_price : ℚ) : ℚ :=
  current_price + current_price * slippageRate

def simulate_exit_price (current_price : ℚ) : ℚ :=
  current_price - current_price * slippageRate

def open_position (s : State) (strategy_name : Strat) (current_price : ℚ) : State :=
  let config := stratConfig strategy_name
  let entry_price := simulate_entry_price current_price
  let position_value := s.capital * config.position_size
  let amount := position_value * config.leverage / entry_price
  let fee := position_value * feeRate
  let position : Position :=
    { symbol := config.symbol, entry_price := entry_price, amount := amount,
      leverage := config.leverage,
      stop_loss := entry_price * (1 - config.stop_loss),
      take_profit := entry_price * (1 + config.take_profit),
      highest_price := entry_price, entry_fee := fee }
  { s with positions := fun n => if n = strategy_name then some position else s.positions n }

/-- A missing key would raise, be caught, and leave the state untouched;
otherwise capital, trades and the position map all change together. -/
def close_position (s : State) (strategy_name : Strat) (current_price : ℚ)
    (reason : ExitReason) : State :=
  match s.positions strategy_name with
  | none => s
  | some position =>
    let exit_price := simulate_exit_price current_price
    let position_value := s.capital * (stratConfig strategy_name).position_size
    let exit_fee := position_value * feeRate
    let price_change := (exit_price - position.entry_price) / position.entry_price
    let pnl_pct := price_change * position.leverage * 100
    let total_fees := position.entry_fee + exit_fee
    let pnl_usd := position_value * (price_change * position.leverage) - total_fees
    let trade : Trade :=
      { strategy := strategy_name, symbol := position.symbol,
        entry_price := position.entry_price, exit_price := exit_price,
        pnl_pct := pnl_pct, pnl_usd := pnl_usd, fees := total_fees, reason := reason }
    { capital := s.capital + pnl_usd,
      positions := fun n => if n = strategy_name then none else s.positions n,
      trades := s.trades ++ [trade] }

/-- Method `check_position_exits`: updates `highest_price` in place, then tests
the three protective exits in order.  Returned pair: the (possibly
updated) position and the matched reason, `(False, None)` being `none`. -/
def check_position_exits (position : Position) (config : StratConfig)
    (current_price : ℚ) : Position × Option ExitReason :=
  let position := if position.highest_price < current_price
    then { position with highest_price := current_price } else position
  if current_price ≤ position.stop_loss then (position, some .stop_loss)
  else if position.take_profit ≤ current_price then (position, some .take_profit)
  else
    let trailing_stop_price := position.highest_price * (1 - config.trailing_stop)
    if current_price ≤ trailing_stop_price then (position, some .trailing_stop)
    else (position, none)

/-- The tick's combined exit decision in `run_strategy`:
`if should_exit or exit_signal: close(..., reason or 'strategy_signal')`. -/
def exitDecision (position : Position) (config : StratConfig) (current_price : ℚ)
    (exit_signal : Bool) : Position × Option ExitReason :=
  let pr := check_position_exits position config current_price
  match pr.2 with
  | some r => (pr.1, some r)
  | none => (pr.1, if exit_signal then some .strategy_signal else none)

/-- One `run_strategy` tick for one strategy.  `data = none` models a
fetch error (the tick is skipped); the enriched dataframe is
`calculate_indicators` of the fetched candles, exactly as `fetch_data`
builds it. -/
def run_strategy (s : State) (strategy_name : Strat) (data : Option (List Candle)) : State :=
  match data with
  | none => s
  | some candles =>
    let df := calculate_indicators candles
    if df.length < 50 then s
    else
      let current_price := (iloc df 1).close
      match s.positions strategy_name with
      | some position =>
        let exit_signal := (strategySignal strategy_name df).2
        let pr := exitDecision position (stratConfig strategy_name) current_price exit_signal
        let s2 := { s with
          positions := fun n => if n = strategy_name then some pr.1 else s.positions n }
        match pr.2 with
        | some r => close_position s2 strategy_name current_price r
        | none => s2
      | none =>
        let entry_signal := (strategySignal strategy_name df).1
        if entry_signal then open_position s strategy_name current_price else s

/-- One scheduler step: a strategy and its fetched data. -/
def stepEvent (s : State) (e : Strat × Option (List Candle)) : State :=
  run_strategy s e.1 e.2

/-- The whole run from the initial state. -/
def runEvents (evs : List (Strat × Option (List Candle))) : State :=
  evs.foldl stepEvent initState

end SimulationTradingBot

/-! ## Live bot (`TradingBot`)

Same shape, but the fill is a real order: `create_market_buy_order` /
`create_market_sell_order` may raise, which the `except` turns into an
aborted attempt.  The order outcome is an explicit `Option Unit`
argument (`none` = the call raised).  All state mutations in the source
are textually after the order call, so a raised order leaves the state
untouched. -/

namespace TradingBot

structure Position where
  symbol : String
  entry_price : ℚ
  amount : ℚ
  leverage : ℚ
  stop_loss : ℚ
  take_profit : ℚ
  highest_price : ℚ
deriving DecidableEq, Repr

structure Trade where
  strategy : Strat
  symbol : String
  entry_price : ℚ
  exit_price : ℚ
  pnl_pct : ℚ
  pnl_usd : ℚ
  reason : ExitReason
deriving DecidableEq, Repr

structure State where
  capital : ℚ
  positions : Strat → Option Position
  trades : List Trade

def initState : State :=
  { capital := initial_capital, positions := fun _ => none, trades := [] }

def open_position (s : State) (strategy_name : Strat) (current_price : ℚ)
    (order : Option Unit) : State :=
  let config := stratConfig strategy_name
  let position_value := s.capital * config.position_size
  let amount := position_value * config.leverage / current_price
  let position : Position :=
    { symbol := config.symbol, entry_price := current_price, amount := amount,
      leverage := config.leverage,
      stop_loss := current_price * (1 - config.stop_loss),
      take_profit := current_price * (1 + config.take_profit),
      highest_price := current_price }
  match order with
  | none => s
  | some _ =>
    { s with positions := fun n => if n = strategy_name then some position
      else s.positions n }

def close_position (s : State) (strategy_name : Strat) (current_price : ℚ)
    (reason : ExitReason) (order : Option Unit) : State :=
  match s.positions strategy_name, order with
  | none, _ => s
  | some _, none => s
  | some position, some _ =>
    let pnl_pct := ((current_price - position.entry_price) / position.entry_price) *
      position.leverage * 100
    let position_value := s.capital * (stratConfig strategy_name).position_size
    let pnl_usd := position_value * (pnl_pct / 100)
    let trade : Trade :=
      { strategy := strategy_name, symbol := position.symbol,
        entry_price := position.entry_price, exit_price := current_price,
        pnl_pct := pnl_pct, pnl_usd := pnl_usd, reason := reason }
    { capital := s.capital + pnl_usd,
      positions := fun n => if n = strategy_name then none else s.positions n,
      trades := s.trades ++ [trade] }

/-- Identical to the simulation variant (duplicated in the source). -/
def check_position_exits (position : Position) (config : StratConfig)
    (current_price : ℚ) : Position × Option ExitReason :=
  let position := if position.highest_price < current_price
    then { position with highest_price := current_price } else position
  if current_price ≤ position.stop_loss then (position, some .stop_loss)
  else if position.take_profit ≤ current_price then (position, some .take_profit)
  else
    let trailing_stop_price := position.highest_price * (1 - config.trailing_stop)
    if current_price ≤ trailing_stop_price then (position, some .trailing_stop)
    else (position, none)

end TradingBot

/-! ## Spec-side formulas, invariants and concrete inputs used by the
claim theorems -/

/-- The oversold-reversal entry formula exactly as the spec words it:
the 20-EMA from ten rows back (`iloc[-10]`) must exceed the CURRENT
50-EMA (the code compares in the opposite direction). -/
def adaEntryPerSpec (rows : List IndRow) : Bool :=
  PFloat.blt (iloc rows 1).rsi (.fin 35) &&
  PFloat.blt (iloc rows 2).rsi (iloc rows 1).rsi &&
  PFloat.blt (.fin (8 / 10)) (IndRow.vol_ratio (iloc rows 1)) &&
  decide ((iloc rows 1).ema50 < (iloc rows 10).ema20)

/-- The P&L formula exactly as claim C1 prescribes it, with
positionValue snapshotted from the capital at OPEN time. -/
def pnlPerClaimC1 (capitalAtOpen size leverage entryFill exitFill totalFees : ℚ) : ℚ :=
  capitalAtOpen * size * ((exitFill - entryFill) / entryFill) * leverage - totalFees

namespace SimulationTradingBot

/-- The ledger invariant: the capital equals the initial capital plus
the sum of the recorded trades' `pnl_usd`. -/
def capitalInv (s : State) : Prop :=
  s.capital = initial_capital + (s.trades.map Trade.pnl_usd).sum

end SimulationTradingBot

/-- A concrete open ADA position used by concrete instantiations. -/
def c7Position : SimulationTradingBot.Position :=
  { symbol := "ADA/USDT", entry_price := 1, amount := 1, leverage := 2,
    stop_loss := 0.5, take_profit := 10, highest_price := 1, entry_fee := 0 }

/-- A concrete bot state holding `c7Position` open under the ADA strategy. -/
def c7State : SimulationTradingBot.State :=
  { capital := 10000,
    positions := fun n => if n = Strat.ADA_RSI then some c7Position else none,
    trades := [] }

/-- A concrete open ADA position on which no exit condition fires at
price 100. -/
def c2Position : SimulationTradingBot.Position :=
  { symbol := "ADA/USDT", entry_price := 100, amount := 1, leverage := 2,
    stop_loss := 50, take_profit := 200, highest_price := 100, entry_fee := 0 }

/-- A concrete bot state holding `c2Position` open under the ADA strategy. -/
def c2State : SimulationTradingBot.State :=
  { capital := 10000,
    positions := fun n => if n = Strat.ADA_RSI then some c2Position else none,
    trades := [] }

/-- The state after: ADA opens at quote 1 with capital 10000, SOL opens
at quote 1, SOL closes at quote 6/5 (a profit that changes the capital
while the ADA position is still open), and finally ADA closes at
quote 1. -/
def c1State : SimulationTradingBot.State :=
  SimulationTradingBot.close_position
    (SimulationTradingBot.close_position
      (SimulationTradingBot.open_position
        (SimulationTradingBot.open_position SimulationTradingBot.initState .ADA_RSI 1)
        .SOL_STOCH 1)
      .SOL_STOCH (6 / 5) .take_profit)
    .ADA_RSI 1 .stop_loss

/-- A concrete live-bot state with an open ADA position. -/
def c1LivePosition : TradingBot.Position :=
  { symbol := "ADA/USDT", entry_price := 1, amount := 5000, leverage := 2,
    stop_loss := 0.92, take_profit := 1.15, highest_price := 1 }

def c1LiveState : TradingBot.State :=
  { capital := 10000,
    positions := fun n => if n = Strat.ADA_RSI then some c1LivePosition else none,
    trades := [] }

/-- Constant candle series: every delta is zero and every rolling high
equals the rolling low. -/
def c8Df : List Candle :=
  List.replicate 50 ({ high := 100, low := 100, close := 100, volume := 1 } : Candle)

/-- The 50-row series refuting C3: a flat plateau at 100 (41 rows), a
steep drop, and a final small uptick.  The RSI and volume conditions
hold, and the spec's EMA comparison (20-EMA ten rows back > current
50-EMA) holds, but the code's comparison (current 20-EMA > 50-EMA ten
rows back) fails. -/
def c3Df : List Candle :=
  (List.replicate 41 ({ high := 100, low := 100, close := 100, volume := 1 } : Candle)) ++
  ([94, 88, 82, 76, 70, 64, 58, 52, 105 / 2] : List ℚ).map
    (fun q => { high := q, low := q, close := q, volume := 1 })

/-! ## PFloat lemmas -/

namespace PFloat

theorem blt_ninf_right (x : PFloat) : blt x ninf = false := by
  cases x <;> rfl

theorem nan_add (x : PFloat) : add nan x = nan := by
  cases x <;> rfl

theorem add_nan (x : PFloat) : add x nan = nan := by
  cases x <;> rfl

theorem nan_div (x : PFloat) : div nan x = nan := by
  cases x <;> rfl

theorem blt_nan_left (x : PFloat) : blt nan x = false := by
  cases x <;> rfl

theorem blt_nan_right (x : PFloat) : blt x nan = false := by
  cases x <;> rfl

/-- A value cannot be both below `a` and above `b` when `a ≤ b`:
the interval thresholds used by the strategies are mutually exclusive. -/
theorem blt_below_above (x : PFloat) (a b : ℚ) (hab : a ≤ b) :
    (blt x (fin a) && blt (fin b) x) = false := by
  cases x with
  | nan => rfl
  | inf => rfl
  | ninf => simp [blt]
  | fin q =>
      simp only [blt, Bool.and_eq_false_iff, decide_eq_false_iff_not, not_lt]
      by_cases h : q < a
      · right
        linarith
      · left
        exact not_lt.mp h

end PFloat

/-! ## General list lemmas -/

theorem getD_range_map {α : Type} (f : ℕ → α) (n i : ℕ) (d : α) (h : i < n) :
    ((List.range n).map f).getD i d = f i := by
  rw [List.getD_eq_getElem?_getD, List.getElem?_map, List.getElem?_range h]
  rfl

theorem foldl_min_le_init (l : List ℚ) (a : ℚ) : l.foldl min a ≤ a := by
  induction l generalizing a with
  | nil => exact le_refl a
  | cons x xs ih => exact le_trans (ih (min a x)) (min_le_left a x)

theorem foldl_min_le_mem (l : List ℚ) (a x : ℚ) (hx : x ∈ l) : l.foldl min a ≤ x := by
  induction l generalizing a with
  | nil => cases hx
  | cons y ys ih =>
      rcases List.mem_cons.mp hx with h | h
      · subst h
        exact le_trans (foldl_min_le_init ys (min a x)) (min_le_right a x)
      · exact ih (min a y) h

theorem le_foldl_max_init (l : List ℚ) (a : ℚ) : a ≤ l.foldl max a := by
  induction l generalizing a with
  | nil => exact le_refl a
  | cons x xs ih => exact le_trans (le_max_left a x) (ih (max a x))

theorem le_foldl_max_mem (l : List ℚ) (a x : ℚ) (hx : x ∈ l) : x ≤ l.foldl max a := by
  induction l generalizing a with
  | nil => cases hx
  | cons y ys ih =>
      rcases List.mem_cons.mp hx with h | h
      · subst h
        exact le_trans (le_max_right a x) (le_foldl_max_init ys (max a x))
      · exact ih (max a y) h

/-! ## Bridge lemmas: the enriched dataframe row `i` is `mkRow df i` -/

theorem calculate_indicators_length (df : List Candle) :
    (calculate_indicators df).length = df.length := by
  simp [calculate_indicators]

theorem iloc_calculate_indicators (df : List Candle) (k : ℕ) (hk : 1 ≤ k)
    (hlen : k ≤ df.length) :
    iloc (calculate_indicators df) k = mkRow df (df.length - k) := by
  unfold iloc calculate_indicators
  rw [List.length_map, List.length_range]
  exact getD_range_map (mkRow df) df.length (df.length - k) dfltRow (by omega)

theorem mkRow_rsi (df : List Candle) (i : ℕ) : (mkRow df i).rsi = rsiAt df i := rfl

theorem mkRow_stoch_k (df : List Candle) (i : ℕ) : (mkRow df i).stoch_k = stochKAt df i := rfl

theorem mkRow_stoch_d (df : List Candle) (i : ℕ) : (mkRow df i).stoch_d = stochDAt df i := rfl

theorem mkRow_adx (df : List Candle) (i : ℕ) : (mkRow df i).adx = adxAt df i := rfl

theorem mkRow_ema20 (df : List Candle) (i : ℕ) : (mkRow df i).ema20 = ema20At df i := rfl

theorem mkRow_ema50 (df : List Candle) (i : ℕ) : (mkRow df i).ema50 = ema50At df i := rfl

theorem mkRow_close (df : List Candle) (i : ℕ) : (mkRow df i).close = closeAt df i := rfl

theorem mkRow_high (df : List Candle) (i : ℕ) : (mkRow df i).high = highAt df i := rfl

theorem mkRow_volQ (df : List Candle) (i : ℕ) :
    IndRow.vol_ratio (mkRow df i) = volRatioAt df i := rfl

/-! ## Claim theorems -/

/-- Claim C9: when the exchange order call of the live bot raises (the
fill is rejected), the open or close attempt aborts with the whole bot
state — the positions map, the capital balance and the trade list —
unchanged; open and close are all-or-nothing. -/
theorem claim_C9_failed_fill_no_mutation :
    (∀ (s : TradingBot.State) (name : Strat) (p : ℚ),
      TradingBot.open_position s name p none = s) ∧
    (∀ (s : TradingBot.State) (name : Strat) (p : ℚ) (r : ExitReason),
      TradingBot.close_position s name p r none = s) := by
  constructor
  · intro s name p
    rfl
  · intro s name p r
    cases h : s.positions name <;> simp [TradingBot.close_position, h]

/-- Claim C5: for every configured strategy, opening a simulated
position at a quoted price and immediately re-evaluating the exit
conditions at that same unchanged quote matches none of the three
protective exits, so the position is not closed on its entry tick. -/
theorem claim_C5_no_exit_at_entry_price (s : SimulationTradingBot.State) (st : Strat)
    (p : ℚ) (hp : 0 < p) (position : SimulationTradingBot.Position)
    (hpos : (SimulationTradingBot.open_position s st p).positions st = some position) :
    SimulationTradingBot.check_position_exits position (stratConfig st) p =
      (position, none) := by
  cases st <;>
    (simp only [SimulationTradingBot.open_position, SimulationTradingBot.simulate_entry_price,
      stratConfig, slippageRate, eq_self_iff_true, if_true, Option.some.injEq] at hpos
     subst hpos
     unfold SimulationTradingBot.check_position_exits
     simp only [stratConfig]
     split_ifs with h1 h2 h3 h4 <;>
       first
         | rfl
         | (exfalso; norm_num at h1 h2 h3 h4; nlinarith)
         | (exfalso; norm_num at h1 h2 h3; nlinarith)
         | (exfalso; norm_num at h1 h2; nlinarith)
         | (exfalso; norm_num at h1; nlinarith))

namespace SimulationTradingBot

theorem check_position_exits_fst (position : Position) (config : StratConfig) (p : ℚ) :
    (check_position_exits position config p).1 =
      (if position.highest_price < p then { position with highest_price := p }
       else position) := by
  unfold check_position_exits
  by_cases h : position.highest_price < p
  · rw [if_pos h]
    dsimp only
    split_ifs <;> rfl
  · rw [if_neg h]
    dsimp only
    split_ifs <;> rfl

theorem check_position_exits_highest (position : Position) (config : StratConfig) (p : ℚ) :
    (check_position_exits position config p).1.highest_price =
      max position.highest_price p := by
  rw [check_position_exits_fst]
  by_cases h : position.highest_price < p
  · rw [if_pos h, max_eq_right (le_of_lt h)]
  · rw [if_neg h, max_eq_left (not_lt.mp h)]

theorem check_position_exits_reason (position : Position) (config : StratConfig) (p : ℚ) :
    (check_position_exits position config p).2 =
      (if p ≤ position.stop_loss then some ExitReason.stop_loss
       else if position.take_profit ≤ p then some ExitReason.take_profit
       else if p ≤ max position.highest_price p * (1 - config.trailing_stop) then
         some ExitReason.trailing_stop
       else none) := by
  unfold check_position_exits
  by_cases h : position.highest_price < p
  · rw [if_pos h, max_eq_right (le_of_lt h)]
    dsimp only
    split_ifs <;> rfl
  · rw [if_neg h, max_eq_left (not_lt.mp h)]
    dsimp only
    split_ifs <;> rfl

theorem exitDecision_fst (position : Position) (config : StratConfig) (p : ℚ) (sig : Bool) :
    (exitDecision position config p sig).1 = (check_position_exits position config p).1 := by
  unfold exitDecision
  dsimp only
  cases h : (check_position_exits position config p).2 <;> rfl

theorem exitDecision_reason (position : Position) (config : StratConfig) (p : ℚ) (sig : Bool) :
    (exitDecision position config p sig).2 =
      (if p ≤ position.stop_loss then some ExitReason.stop_loss
       else if position.take_profit ≤ p then some ExitReason.take_profit
       else if p ≤ max position.highest_price p * (1 - config.trailing_stop) then
         some ExitReason.trailing_stop
       else if sig then some ExitReason.strategy_signal else none) := by
  unfold exitDecision
  rw [show (check_position_exits position config p) =
      ((check_position_exits position config p).1,
       (check_position_exits position config p).2) from rfl,
    check_position_exits_reason]
  split_ifs <;> rfl

theorem open_position_positions_ne (s : State) (name name' : Strat) (p : ℚ)
    (h : ¬ name' = name) :
    (open_position s name p).positions name' = s.positions name' := by
  simp [open_position, h]

theorem close_position_positions_ne (s : State) (name name' : Strat) (p : ℚ)
    (r : ExitReason) (h : ¬ name' = name) :
    (close_position s name p r).positions name' = s.positions name' := by
  cases hp : s.positions name <;> simp [close_position, hp, h]

theorem close_position_positions_self (s : State) (name : Strat) (p : ℚ) (r : ExitReason) :
    (close_position s name p r).positions name = none := by
  cases h : s.positions name <;> simp [close_position, h]

theorem run_strategy_positions_ne (s : State) (st : Strat) (data : Option (List Candle))
    (name : Strat) (h : ¬ name = st) :
    (run_strategy s st data).positions name = s.positions name := by
  cases data with
  | none => rfl
  | some candles =>
      unfold run_strategy
      dsimp only
      by_cases hlen : (calculate_indicators candles).length < 50
      · rw [if_pos hlen]
      · rw [if_neg hlen]
        cases hp : s.positions st with
        | some position =>
            dsimp only
            cases hd : (exitDecision position (stratConfig st)
                ((iloc (calculate_indicators candles) 1).close)
                ((strategySignal st (calculate_indicators candles)).2)).2 with
            | some r =>
                rw [close_position_positions_ne _ _ _ _ _ h]
                simp [h]
            | none => simp [h]
        | none =>
            dsimp only
            by_cases he : (strategySignal st (calculate_indicators candles)).1 = true
            · rw [if_pos he]
              exact open_position_positions_ne s st name _ h
            · rw [if_neg he]

end SimulationTradingBot

namespace SimulationTradingBot


theorem close_position_ledger (s : State) (name : Strat) (p : ℚ) (r : ExitReason)
    (position : Position) (h : s.positions name = some position) :
    ∃ t : Trade, (close_position s name p r).trades = s.trades ++ [t] ∧
      (close_position s name p r).capital = s.capital + Trade.pnl_usd t := by
  unfold close_position
  rw [h]
  dsimp only
  exact ⟨_, rfl, rfl⟩

theorem capitalInv_close (s : State) (name : Strat) (p : ℚ) (r : ExitReason)
    (hs : capitalInv s) : capitalInv (close_position s name p r) := by
  cases h : s.positions name with
  | none =>
      unfold close_position
      rw [h]
      exact hs
  | some position =>
      rcases close_position_ledger s name p r position h with ⟨t, ht, hc⟩
      unfold capitalInv at hs ⊢
      rw [hc, ht, hs]
      simp only [List.map_append, List.sum_append, List.map_cons, List.map_nil,
        List.sum_cons, List.sum_nil]
      ring

theorem capitalInv_step (s : State) (e : Strat × Option (List Candle))
    (hs : capitalInv s) : capitalInv (stepEvent s e) := by
  rcases e with ⟨st, data⟩
  cases data with
  | none => exact hs
  | some candles =>
      unfold stepEvent run_strategy
      dsimp only
      by_cases hlen : (calculate_indicators candles).length < 50
      · rw [if_pos hlen]
        exact hs
      · rw [if_neg hlen]
        cases hp : s.positions st with
        | some position =>
            dsimp only
            cases hd : (exitDecision position (stratConfig st)
                ((iloc (calculate_indicators candles) 1).close)
                ((strategySignal st (calculate_indicators candles)).2)).2 with
            | some r => exact capitalInv_close _ st _ r hs
            | none => exact hs
        | none =>
            dsimp only
            by_cases he : (strategySignal st (calculate_indicators candles)).1 = true
            · rw [if_pos he]
              exact hs
            · rw [if_neg he]
              exact hs

theorem capitalInv_foldl (evs : List (Strat × Option (List Candle))) (s : State)
    (hs : capitalInv s) : capitalInv (evs.foldl stepEvent s) := by
  induction evs generalizing s with
  | nil => exact hs
  | cons e es ih => exact ih _ (capitalInv_step s e hs)

end SimulationTradingBot

/-- Claim C6: the running capital is mutated exactly once per closed
trade, by adding that trade's `pnl_usd` (opens and exit checks leave it
alone), so after any run the capital equals the initial capital plus
the sum of `pnl_usd` over all recorded trades, exactly. -/
theorem claim_C6_capital_is_initial_plus_pnl :
    (∀ evs : List (Strat × Option (List Candle)),
      (SimulationTradingBot.runEvents evs).capital =
        initial_capital + (((SimulationTradingBot.runEvents evs).trades.map
          SimulationTradingBot.Trade.pnl_usd)).sum) ∧
    (∀ (s : SimulationTradingBot.State) (name : Strat) (p : ℚ),
      (SimulationTradingBot.open_position s name p).capital = s.capital ∧
      (SimulationTradingBot.open_position s name p).trades = s.trades) ∧
    (∀ (s : SimulationTradingBot.State) (name : Strat) (p : ℚ) (r : ExitReason)
      (position : SimulationTradingBot.Position), s.positions name = some position →
      ∃ t : SimulationTradingBot.Trade,
        (SimulationTradingBot.close_position s name p r).trades = s.trades ++ [t] ∧
        (SimulationTradingBot.close_position s name p r).capital =
          s.capital + SimulationTradingBot.Trade.pnl_usd t) := by
  refine ⟨?_, ?_, ?_⟩
  · intro evs
    exact SimulationTradingBot.capitalInv_foldl evs SimulationTradingBot.initState
      (by simp [SimulationTradingBot.capitalInv, SimulationTradingBot.initState])
  · intro s name p
    exact ⟨rfl, rfl⟩
  · intro s name p r position h
    exact SimulationTradingBot.close_position_ledger s name p r position h


/-- Claim C2: on a tick of an open simulated position the exit
conditions are evaluated in the fixed priority order stop-loss,
take-profit, trailing-stop (against the freshly updated
`highest_price`), then the strategy exit signal; the first match is the
recorded reason — in particular a stop-loss hit yields
`stop_loss` whatever the strategy signal says — and when nothing
matches the tick leaves the position OPEN (with its updated
`highest_price`). -/
theorem claim_C2_exit_priority_order (position : SimulationTradingBot.Position)
    (config : StratConfig) (p : ℚ) (sig : Bool) :
    (p ≤ position.stop_loss →
      (SimulationTradingBot.exitDecision position config p sig).2 =
        some ExitReason.stop_loss) ∧
    (¬ p ≤ position.stop_loss → position.take_profit ≤ p →
      (SimulationTradingBot.exitDecision position config p sig).2 =
        some ExitReason.take_profit) ∧
    (¬ p ≤ position.stop_loss → ¬ position.take_profit ≤ p →
      p ≤ max position.highest_price p * (1 - config.trailing_stop) →
      (SimulationTradingBot.exitDecision position config p sig).2 =
        some ExitReason.trailing_stop) ∧
    (¬ p ≤ position.stop_loss → ¬ position.take_profit ≤ p →
      ¬ p ≤ max position.highest_price p * (1 - config.trailing_stop) →
      (SimulationTradingBot.exitDecision position config p sig).2 =
        (if sig then some ExitReason.strategy_signal else none)) ∧
    (∀ (s : SimulationTradingBot.State) (name : Strat) (candles : List Candle),
      50 ≤ candles.length →
      s.positions name = some position →
      (SimulationTradingBot.exitDecision position (stratConfig name)
          ((iloc (calculate_indicators candles) 1).close)
          ((strategySignal name (calculate_indicators candles)).2)).2 = none →
      (SimulationTradingBot.run_strategy s name (some candles)).positions name =
        some (SimulationTradingBot.exitDecision position (stratConfig name)
          ((iloc (calculate_indicators candles) 1).close)
          ((strategySignal name (calculate_indicators candles)).2)).1) := by
  refine ⟨?_, ?_, ?_, ?_, ?_⟩
  · intro h1
    rw [SimulationTradingBot.exitDecision_reason, if_pos h1]
  · intro h1 h2
    rw [SimulationTradingBot.exitDecision_reason, if_neg h1, if_pos h2]
  · intro h1 h2 h3
    rw [SimulationTradingBot.exitDecision_reason, if_neg h1, if_neg h2, if_pos h3]
  · intro h1 h2 h3
    rw [SimulationTradingBot.exitDecision_reason, if_neg h1, if_neg h2, if_neg h3]
  · intro s name candles hlen hpos hdec
    have hlen' : ¬ (calculate_indicators candles).length < 50 := by
      rw [calculate_indicators_length]
      omega
    unfold SimulationTradingBot.run_strategy
    dsimp only
    rw [if_neg hlen', hpos]
    dsimp only
    rw [hdec]
    simp

/-- Witness for C2: a stop-loss hit is reported as `stop_loss` even with
the strategy exit signal raised; the trailing-stop scenario of the spec
(highest 1.5, trailing 0.10, price 1.34) reports `trailing_stop`; a
quiet tick reports no exit; and a full `run_strategy` tick with no
matching condition keeps the position OPEN. -/
theorem claim_C2_witness :
    (SimulationTradingBot.exitDecision
      ({ symbol := "ADA/USDT", entry_price := 1, amount := 1, leverage := 2,
         stop_loss := 0.92, take_profit := 1.15, highest_price := 1, entry_fee := 0 })
      (stratConfig .ADA_RSI) 0.91 true).2 = some ExitReason.stop_loss ∧
    (SimulationTradingBot.exitDecision
      ({ symbol := "ADA/USDT", entry_price := 1, amount := 1, leverage := 2,
         stop_loss := 0.5, take_profit := 2, highest_price := 1.5, entry_fee := 0 })
      (stratConfig .ADA_RSI) 1.34 false).2 = some ExitReason.trailing_stop ∧
    (SimulationTradingBot.exitDecision
      ({ symbol := "ADA/USDT", entry_price := 1, amount := 1, leverage := 2,
         stop_loss := 0.92, take_profit := 1.15, highest_price := 1, entry_fee := 0 })
      (stratConfig .ADA_RSI) 1 false).2 = none ∧
    (SimulationTradingBot.run_strategy c2State Strat.ADA_RSI (some c8Df)).positions
        Strat.ADA_RSI =
      some (SimulationTradingBot.exitDecision c2Position (stratConfig .ADA_RSI)
        ((iloc (calculate_indicators c8Df) 1).close)
        ((strategySignal .ADA_RSI (calculate_indicators c8Df)).2)).1 := by
  refine ⟨?_, ?_, ?_, ?_⟩
  · exact (claim_C2_exit_priority_order _ _ _ _).1 (by norm_num)
  · exact (claim_C2_exit_priority_order _ _ _ _).2.2.1 (by norm_num)
      (by norm_num) (by norm_num [stratConfig])
  · have h := (claim_C2_exit_priority_order
      ({ symbol := "ADA/USDT", entry_price := 1, amount := 1, leverage := 2,
         stop_loss := 0.92, take_profit := 1.15, highest_price := 1, entry_fee := 0 })
      (stratConfig .ADA_RSI) 1 false).2.2.2.1
    rw [h (by norm_num) (by norm_num) (by norm_num [stratConfig])]
    rfl
  · exact (claim_C2_exit_priority_order c2Position (stratConfig .ADA_RSI) 0
      false).2.2.2.2 c2State Strat.ADA_RSI c8Df (by decide) (by rfl)
      (by with_unfolding_all decide)

/-- Claim C7: each tick on an open position sets `highest_price` to the
maximum of its previous value and the current price, and no scheduler
step ever decreases the `highest_price` of a position that stays open
across it. -/
theorem claim_C7_highest_price_monotone :
    (∀ (position : SimulationTradingBot.Position) (config : StratConfig) (p : ℚ),
      (SimulationTradingBot.check_position_exits position config p).1.highest_price =
        max position.highest_price p) ∧
    (∀ (s : SimulationTradingBot.State) (e : Strat × Option (List Candle)) (name : Strat)
      (position position' : SimulationTradingBot.Position),
      s.positions name = some position →
      (SimulationTradingBot.stepEvent s e).positions name = some position' →
      position.highest_price ≤ position'.highest_price) := by
  constructor
  · exact SimulationTradingBot.check_position_exits_highest
  · intro s e name position position' hpos hpos'
    rcases e with ⟨st, data⟩
    by_cases hst : name = st
    · subst hst
      cases data with
      | none =>
          rw [show (SimulationTradingBot.stepEvent s (name, none)) = s from rfl, hpos]
            at hpos'
          cases hpos'
          exact le_refl _
      | some candles =>
          unfold SimulationTradingBot.stepEvent SimulationTradingBot.run_strategy at hpos'
          dsimp only at hpos'
          by_cases hlen : (calculate_indicators candles).length < 50
          · rw [if_pos hlen, hpos] at hpos'
            cases hpos'
            exact le_refl _
          · rw [if_neg hlen, hpos] at hpos'
            dsimp only at hpos'
            cases hd : (SimulationTradingBot.exitDecision position (stratConfig name)
                ((iloc (calculate_indicators candles) 1).close)
                ((strategySignal name (calculate_indicators candles)).2)).2 with
            | some r =>
                rw [hd] at hpos'
                dsimp only at hpos'
                rw [SimulationTradingBot.close_position_positions_self] at hpos'
                cases hpos'
            | none =>
                rw [hd] at hpos'
                dsimp only at hpos'
                simp only [if_pos rfl, eq_self_iff_true, if_true,
                  Option.some.injEq] at hpos'
                subst hpos'
                rw [SimulationTradingBot.exitDecision_fst,
                  SimulationTradingBot.check_position_exits_highest]
                exact le_max_left _ _
    · rw [show (SimulationTradingBot.stepEvent s (st, data)) =
          SimulationTradingBot.run_strategy s st data from rfl,
        SimulationTradingBot.run_strategy_positions_ne s st data name hst, hpos] at hpos'
      cases hpos'
      exact le_refl _

/-- Witness for C7: a scheduler step whose fetch failed keeps a concrete
open ADA position, and the theorem yields that its `highest_price` did
not decrease. -/
theorem claim_C7_witness :
    ((SimulationTradingBot.stepEvent c7State (Strat.ADA_RSI, none)).positions Strat.ADA_RSI =
      some c7Position) ∧
    c7Position.highest_price ≤ c7Position.highest_price :=
  ⟨by rfl, (claim_C7_highest_price_monotone).2 c7State (Strat.ADA_RSI, none) Strat.ADA_RSI
    c7Position c7Position (by rfl) (by rfl)⟩

/-- Witness for C5 at the ADA strategy, quote 1, from the initial state. -/
theorem claim_C5_witness :
    SimulationTradingBot.check_position_exits
      ({ symbol := "ADA/USDT", entry_price := 1.001, amount := 2500 * 2 / 1.001,
         leverage := 2, stop_loss := 1.001 * (1 - 0.08), take_profit := 1.001 * (1 + 0.15),
         highest_price := 1.001, entry_fee := 2.5 }) (stratConfig .ADA_RSI) 1 =
      ({ symbol := "ADA/USDT", entry_price := 1.001, amount := 2500 * 2 / 1.001,
         leverage := 2, stop_loss := 1.001 * (1 - 0.08), take_profit := 1.001 * (1 + 0.15),
         highest_price := 1.001, entry_fee := 2.5 }, none) :=
  claim_C5_no_exit_at_entry_price SimulationTradingBot.initState .ADA_RSI 1 (by norm_num)
    _ (by norm_num [SimulationTradingBot.open_position,
        SimulationTradingBot.simulate_entry_price, stratConfig, slippageRate,
        SimulationTradingBot.initState, initial_capital, feeRate])

/-- Witness for C6: closing the concrete open ADA position of `c7State`
appends exactly one trade and moves the capital by its `pnl_usd`. -/
theorem claim_C6_witness :
    ∃ t : SimulationTradingBot.Trade,
      (SimulationTradingBot.close_position c7State .ADA_RSI 1 .stop_loss).trades =
        c7State.trades ++ [t] ∧
      (SimulationTradingBot.close_position c7State .ADA_RSI 1 .stop_loss).capital =
        c7State.capital + SimulationTradingBot.Trade.pnl_usd t :=
  claim_C6_capital_is_initial_plus_pnl.2.2 c7State .ADA_RSI 1 .stop_loss c7Position (by rfl)



/-- Claim C1 counterexample: the recorded `pnl_usd` of the ADA close
(trade index 1 of `c1State`) differs from the claim's formula evaluated
with the capital snapshotted when the ADA position was opened (10000,
position size 0.25, leverage 2) and the trade's own recorded fills and
fees: `close_position` computes positionValue from the capital at close
time, which the interleaved SOL close has changed. -/
theorem claim_C1_counterexample :
    (c1State.trades.map SimulationTradingBot.Trade.pnl_usd).getD 1 0 ≠
      pnlPerClaimC1 10000 0.25 2
        ((c1State.trades.map SimulationTradingBot.Trade.entry_price).getD 1 0)
        ((c1State.trades.map SimulationTradingBot.Trade.exit_price).getD 1 0)
        ((c1State.trades.map SimulationTradingBot.Trade.fees).getD 1 0) := by
  with_unfolding_all decide

/-- Claim C1 amended: every close records
`priceChange = (exitFill - entryFill)/entryFill`,
`pnl_pct = priceChange × leverage × 100` and
`pnl_usd = positionValue × priceChange × leverage - totalFees`, but
with `positionValue = capitalAtClose × position_size` (the capital read
when the close executes, not a snapshot from open time); in simulation
`exitFill = quote × (1 - slippage)` and
`totalFees = entry_fee + positionValue × feeRate`, and the live bot
charges no fees. -/
theorem claim_C1_amended_pnl_close_capital :
    (∀ (s : SimulationTradingBot.State) (name : Strat) (p : ℚ) (r : ExitReason)
      (position : SimulationTradingBot.Position), s.positions name = some position →
      ∃ t : SimulationTradingBot.Trade,
        (SimulationTradingBot.close_position s name p r).trades = s.trades ++ [t] ∧
        t.exit_price = SimulationTradingBot.simulate_exit_price p ∧
        t.pnl_pct = (t.exit_price - position.entry_price) / position.entry_price *
          position.leverage * 100 ∧
        t.fees = position.entry_fee +
          s.capital * (stratConfig name).position_size * feeRate ∧
        t.pnl_usd = s.capital * (stratConfig name).position_size *
          ((t.exit_price - position.entry_price) / position.entry_price) *
          position.leverage - t.fees) ∧
    (∀ (s : TradingBot.State) (name : Strat) (p : ℚ) (r : ExitReason)
      (position : TradingBot.Position), s.positions name = some position →
      ∃ t : TradingBot.Trade,
        (TradingBot.close_position s name p r (some ())).trades = s.trades ++ [t] ∧
        t.pnl_pct = (p - position.entry_price) / position.entry_price *
          position.leverage * 100 ∧
        t.pnl_usd = s.capital * (stratConfig name).position_size * (t.pnl_pct / 100)) := by
  constructor
  · intro s name p r position h
    unfold SimulationTradingBot.close_position
    rw [h]
    dsimp only
    refine ⟨_, rfl, rfl, rfl, rfl, ?_⟩
    ring
  · intro s name p r position h
    unfold TradingBot.close_position
    rw [h]
    dsimp only
    exact ⟨_, rfl, rfl, rfl⟩


/-- Witness for the amended C1 on both bots at concrete closes. -/
theorem claim_C1_witness :
    (∃ t : SimulationTradingBot.Trade,
      (SimulationTradingBot.close_position c7State .ADA_RSI 1 .stop_loss).trades =
        c7State.trades ++ [t] ∧
      t.exit_price = SimulationTradingBot.simulate_exit_price 1 ∧
      t.pnl_pct = (t.exit_price - c7Position.entry_price) / c7Position.entry_price *
        c7Position.leverage * 100 ∧
      t.fees = c7Position.entry_fee +
        c7State.capital * (stratConfig .ADA_RSI).position_size * feeRate ∧
      t.pnl_usd = c7State.capital * (stratConfig .ADA_RSI).position_size *
        ((t.exit_price - c7Position.entry_price) / c7Position.entry_price) *
        c7Position.leverage - t.fees) ∧
    (∃ t : TradingBot.Trade,
      (TradingBot.close_position c1LiveState .ADA_RSI (11 / 10) .take_profit
        (some ())).trades = c1LiveState.trades ++ [t] ∧
      t.pnl_pct = ((11 / 10 : ℚ) - c1LivePosition.entry_price) /
        c1LivePosition.entry_price * c1LivePosition.leverage * 100 ∧
      t.pnl_usd = c1LiveState.capital * (stratConfig .ADA_RSI).position_size *
        (t.pnl_pct / 100)) :=
  ⟨claim_C1_amended_pnl_close_capital.1 c7State .ADA_RSI 1 .stop_loss c7Position (by rfl),
   claim_C1_amended_pnl_close_capital.2 c1LiveState .ADA_RSI (11 / 10) .take_profit
     c1LivePosition (by rfl)⟩

/-- Claim C10: on every candle series, none of the three strategy
evaluators reports entry and exit from the same call — each strategy's
entry and exit thresholds on its driving indicator are mutually
exclusive (RSI < 35 vs > 60, %K < 30 vs > 80, ADX > 25 vs < 20) — and a
series shorter than 50 rows yields (false, false) from all three. -/
theorem claim_C10_entry_exit_mutually_exclusive (df : List Candle) :
    ((ada_rsi_signal (calculate_indicators df)).1 &&
      (ada_rsi_signal (calculate_indicators df)).2) = false ∧
    ((sol_stoch_signal (calculate_indicators df)).1 &&
      (sol_stoch_signal (calculate_indicators df)).2) = false ∧
    ((xrp_adx_signal (calculate_indicators df)).1 &&
      (xrp_adx_signal (calculate_indicators df)).2) = false ∧
    (df.length < 50 →
      ada_rsi_signal (calculate_indicators df) = (false, false) ∧
      sol_stoch_signal (calculate_indicators df) = (false, false) ∧
      xrp_adx_signal (calculate_indicators df) = (false, false)) := by
  refine ⟨?_, ?_, ?_, ?_⟩
  · unfold ada_rsi_signal
    by_cases h : (calculate_indicators df).length < 50
    · rw [if_pos h]
      rfl
    · rw [if_neg h]
      dsimp only
      have hx := PFloat.blt_below_above (iloc (calculate_indicators df) 1).rsi 35 60
        (by norm_num)
      cases hb : PFloat.blt (iloc (calculate_indicators df) 1).rsi (.fin 35) with
      | false => simp [hb]
      | true =>
          rw [hb] at hx
          simp only [Bool.true_and] at hx
          simp [hx]
  · unfold sol_stoch_signal
    by_cases h : (calculate_indicators df).length < 50
    · rw [if_pos h]
      rfl
    · rw [if_neg h]
      dsimp only
      have hx := PFloat.blt_below_above (iloc (calculate_indicators df) 1).stoch_k 30 80
        (by norm_num)
      cases hb : PFloat.blt (iloc (calculate_indicators df) 1).stoch_k (.fin 30) with
      | false => simp [hb]
      | true =>
          rw [hb] at hx
          simp only [Bool.true_and] at hx
          simp [hx]
  · unfold xrp_adx_signal
    by_cases h : (calculate_indicators df).length < 50
    · rw [if_pos h]
      rfl
    · rw [if_neg h]
      dsimp only
      have hx := PFloat.blt_below_above (iloc (calculate_indicators df) 1).adx 20 25
        (by norm_num)
      cases hb : PFloat.blt (iloc (calculate_indicators df) 1).adx (.fin 20) with
      | false => simp [hb]
      | true =>
          rw [hb] at hx
          simp only [Bool.true_and] at hx
          simp [hx]
  · intro h
    have h' : (calculate_indicators df).length < 50 := by
      rw [calculate_indicators_length]
      omega
    refine ⟨?_, ?_, ?_⟩
    · unfold ada_rsi_signal
      rw [if_pos h']
    · unfold sol_stoch_signal
      rw [if_pos h']
    · unfold xrp_adx_signal
      rw [if_pos h']

/-- Witness for C10 on the empty series (shorter than 50 rows). -/
theorem claim_C10_witness :
    ada_rsi_signal (calculate_indicators []) = (false, false) ∧
    sol_stoch_signal (calculate_indicators []) = (false, false) ∧
    xrp_adx_signal (calculate_indicators []) = (false, false) :=
  (claim_C10_entry_exit_mutually_exclusive []).2.2.2 (by decide)

/-- Claim C8: when the 14-period rolling high equals the 14-period
rolling low at the latest row, %K is indeterminate; the computation
raises no division-by-zero error (the embedding is total, mirroring
numpy which silently yields NaN or an infinity), and the
stochastic-crossover evaluator reports entry = false. -/
theorem claim_C8_degenerate_stoch_suppresses_entry (df : List Candle)
    (h : highMaxAt df (df.length - 1) = lowMinAt df (df.length - 1)) :
    (sol_stoch_signal (calculate_indicators df)).1 = false := by
  unfold sol_stoch_signal
  by_cases hlen : (calculate_indicators df).length < 50
  · rw [if_pos hlen]
  · rw [if_neg hlen]
    dsimp only
    rw [calculate_indicators_length, not_lt] at hlen
    rw [iloc_calculate_indicators df 1 (by norm_num) (by omega)]
    simp only [mkRow_stoch_k, mkRow_stoch_d]
    unfold stochKAt
    rw [h]
    unfold lowMinAt rollMinQ
    split_ifs with hw
    · generalize (((windowIdx 14 (df.length - 1)).map (lowAt df)).foldl min
        (lowAt df (df.length - 1 + 1 - 14))) = m
      have hden : PFloat.sub (.fin m) (.fin m) = .fin 0 := by
        simp [PFloat.sub, PFloat.neg, PFloat.add]
      have hnum : PFloat.sub (.fin (closeAt df (df.length - 1))) (.fin m) =
          .fin (closeAt df (df.length - 1) - m) := by
        simp [PFloat.sub, PFloat.neg, PFloat.add]
        ring
      rw [hden, hnum]
      rcases lt_trichotomy (closeAt df (df.length - 1) - m) 0 with hc | hc | hc
      · have hK : PFloat.div (.fin (closeAt df (df.length - 1) - m)) (.fin 0) =
            PFloat.ninf := by
          simp [PFloat.div, hc, not_lt_of_lt hc, asymm hc]
        rw [hK]
        have hM : PFloat.mul (.fin 100) PFloat.ninf = PFloat.ninf := by
          norm_num [PFloat.mul]
        rw [hM]
        simp [PFloat.blt_ninf_right]
      · have hK : PFloat.div (.fin (closeAt df (df.length - 1) - m)) (.fin 0) =
            PFloat.nan := by
          simp [PFloat.div, hc]
        rw [hK]
        simp [PFloat.mul, PFloat.blt]
      · have hK : PFloat.div (.fin (closeAt df (df.length - 1) - m)) (.fin 0) =
            PFloat.inf := by
          simp [PFloat.div, hc, asymm hc]
        rw [hK]
        have hM : PFloat.mul (.fin 100) PFloat.inf = PFloat.inf := by
          norm_num [PFloat.mul]
        rw [hM]
        simp [PFloat.blt]
    · simp [PFloat.sub, PFloat.neg, PFloat.add, PFloat.div, PFloat.mul, PFloat.blt]


/-- Witness for C8 on the constant series. -/
theorem claim_C8_witness :
    highMaxAt c8Df (c8Df.length - 1) = lowMinAt c8Df (c8Df.length - 1) ∧
    (sol_stoch_signal (calculate_indicators c8Df)).1 = false :=
  ⟨by with_unfolding_all decide,
   claim_C8_degenerate_stoch_suppresses_entry c8Df (by with_unfolding_all decide)⟩

theorem gainAt_nonneg (df : List Candle) (i : ℕ) : 0 ≤ gainAt df i := by
  unfold gainAt
  split_ifs
  · exact le_refl 0
  · exact le_max_right _ _

theorem lossAt_nonneg (df : List Candle) (i : ℕ) : 0 ≤ lossAt df i := by
  unfold lossAt
  split_ifs
  · exact le_refl 0
  · exact le_max_right _ _

theorem windowSum_nonneg (g : ℕ → ℚ) (hg : ∀ j, 0 ≤ g j) (w i : ℕ) :
    0 ≤ (((windowIdx w i).map g).sum) := by
  apply List.sum_nonneg
  intro x hx
  rcases List.mem_map.mp hx with ⟨j, _, rfl⟩
  exact hg j

/-- RSI is `NaN` (not enough rows, or a 0/0 relative strength) or a
finite value in [0, 100]. -/
theorem rsiAt_nan_or_bounded (df : List Candle) (i : ℕ) :
    rsiAt df i = .nan ∨ ∃ q, rsiAt df i = .fin q ∧ 0 ≤ q ∧ q ≤ 100 := by
  unfold rsiAt rsAt avgGainAt avgLossAt rollMeanQ
  by_cases hw : 14 ≤ i + 1
  · rw [if_pos hw, if_pos hw]
    generalize hg : (((windowIdx 14 i).map (gainAt df)).sum / (14 : ℚ)) = g
    generalize hl : (((windowIdx 14 i).map (lossAt df)).sum / (14 : ℚ)) = l
    have hg0 : 0 ≤ g := by
      rw [← hg]
      exact div_nonneg (windowSum_nonneg _ (gainAt_nonneg df) 14 i) (by norm_num)
    have hl0 : 0 ≤ l := by
      rw [← hl]
      exact div_nonneg (windowSum_nonneg _ (lossAt_nonneg df) 14 i) (by norm_num)
    rcases eq_or_lt_of_le hl0 with hl0' | hl0'
    · rcases eq_or_lt_of_le hg0 with hg0' | hg0'
      · left
        rw [← hl0', ← hg0']
        rfl
      · right
        refine ⟨100, ?_, by norm_num, by norm_num⟩
        rw [← hl0']
        simp [PFloat.div, PFloat.add, PFloat.sub, PFloat.neg, hg0']
    · right
      have hlne : l ≠ 0 := ne_of_gt hl0'
      have hrs0 : 0 ≤ g / l := div_nonneg hg0 (le_of_lt hl0')
      have hd0 : (0 : ℚ) < 1 + g / l := by linarith
      have hdne : (1 : ℚ) + g / l ≠ 0 := ne_of_gt hd0
      refine ⟨100 + -(100 / (1 + g / l)), ?_, ?_, ?_⟩
      · simp [PFloat.div, PFloat.add, PFloat.sub, PFloat.neg, hlne, hdne]
      · have h2 : 100 / (1 + g / l) ≤ 100 := by
          rw [div_le_iff₀ hd0]
          nlinarith
        linarith
      · have h3 : 0 < 100 / (1 + g / l) := by positivity
        linarith
  · rw [if_neg hw, if_neg hw]
    left
    rfl

/-- The amended avgLoss = 0 edge case: RSI is 100 when avgGain is
positive, `NaN` when both averages vanish. -/
theorem rsiAt_of_avgLoss_zero (df : List Candle) (i : ℕ) (g : ℚ)
    (hG : avgGainAt df i = .fin g) (hL : avgLossAt df i = .fin 0) :
    (0 < g → rsiAt df i = .fin 100) ∧ (g = 0 → rsiAt df i = .nan) := by
  unfold rsiAt rsAt
  rw [hG, hL]
  constructor
  · intro hg
    simp [PFloat.div, PFloat.add, PFloat.sub, PFloat.neg, hg]
  · intro hg
    subst hg
    rfl

theorem mem_windowIdx_self (w i : ℕ) (hw : w ≤ i + 1) (hw0 : 0 < w) :
    i ∈ windowIdx w i := by
  unfold windowIdx
  refine List.mem_map.mpr ⟨w - 1, List.mem_range.mpr (by omega), by omega⟩

theorem candle_wf_at (df : List Candle) (i : ℕ)
    (hwf : ∀ c ∈ df, c.low ≤ c.close ∧ c.close ≤ c.high) :
    lowAt df i ≤ closeAt df i ∧ closeAt df i ≤ highAt df i := by
  unfold lowAt closeAt highAt
  by_cases h : i < df.length
  · rw [List.getD_eq_getElem df dfltCandle h]
    exact hwf _ (List.getElem_mem h)
  · rw [List.getD_eq_default df dfltCandle (le_of_not_lt h)]
    exact ⟨le_refl 0, le_refl 0⟩

/-- The %K value is `NaN` (not enough rows, or a degenerate window on well-formed
candles) or a finite value in [0, 100]. -/
theorem stochKAt_nan_or_bounded (df : List Candle) (i : ℕ)
    (hwf : ∀ c ∈ df, c.low ≤ c.close ∧ c.close ≤ c.high) :
    stochKAt df i = .nan ∨ ∃ q, stochKAt df i = .fin q ∧ 0 ≤ q ∧ q ≤ 100 := by
  unfold stochKAt lowMinAt highMaxAt rollMinQ rollMaxQ
  by_cases hw : 14 ≤ i + 1
  · rw [if_pos hw, if_pos hw]
    generalize hm : (((windowIdx 14 i).map (lowAt df)).foldl min
      (lowAt df (i + 1 - 14))) = m
    generalize hM : (((windowIdx 14 i).map (highAt df)).foldl max
      (highAt df (i + 1 - 14))) = M
    have hat := candle_wf_at df i hwf
    have hmi : m ≤ lowAt df i := by
      rw [← hm]
      exact foldl_min_le_mem _ _ _
        (List.mem_map.mpr ⟨i, mem_windowIdx_self 14 i hw (by norm_num), rfl⟩)
    have hMi : highAt df i ≤ M := by
      rw [← hM]
      exact le_foldl_max_mem _ _ _
        (List.mem_map.mpr ⟨i, mem_windowIdx_self 14 i hw (by norm_num), rfl⟩)
    have hmc : m ≤ closeAt df i := le_trans hmi hat.1
    have hcM : closeAt df i ≤ M := le_trans hat.2 hMi
    have hnum : PFloat.sub (.fin (closeAt df i)) (.fin m) = .fin (closeAt df i - m) := by
      simp [PFloat.sub, PFloat.neg, PFloat.add]
      ring
    have hden : PFloat.sub (.fin M) (.fin m) = .fin (M - m) := by
      simp [PFloat.sub, PFloat.neg, PFloat.add]
      ring
    rw [hnum, hden]
    rcases eq_or_lt_of_le (le_trans hmc hcM) with hMm | hMm
    · left
      have hc : closeAt df i - m = 0 := by
        have h1 : closeAt df i ≤ m := by
          rw [hMm]
          exact hcM
        linarith
      have hd : M - m = 0 := by
        rw [← hMm]
        ring
      rw [hc, hd]
      rfl
    · right
      have hpos : 0 < M - m := by linarith
      have hdz : M - m ≠ 0 := ne_of_gt hpos
      have h0 : 0 ≤ (closeAt df i - m) / (M - m) :=
        div_nonneg (by linarith) (le_of_lt hpos)
      refine ⟨100 * ((closeAt df i - m) / (M - m)), ?_, by linarith, ?_⟩
      · simp [PFloat.div, PFloat.mul, hdz]
      · have hle1 : (closeAt df i - m) / (M - m) ≤ 1 := by
          rw [div_le_one hpos]
          linarith
        linarith
  · rw [if_neg hw, if_neg hw]
    left
    rfl

theorem windowIdx_three (i : ℕ) (h : 3 ≤ i + 1) : windowIdx 3 i = [i - 2, i - 1, i] := by
  unfold windowIdx
  have h3 : List.range 3 = [0, 1, 2] := by decide
  rw [h3]
  simp only [List.map_cons, List.map_nil, List.cons.injEq, and_true]
  omega

/-- The %D value is `NaN` or a finite value in [0, 100] on well-formed candles. -/
theorem stochDAt_nan_or_bounded (df : List Candle) (i : ℕ)
    (hwf : ∀ c ∈ df, c.low ≤ c.close ∧ c.close ≤ c.high) :
    stochDAt df i = .nan ∨ ∃ q, stochDAt df i = .fin q ∧ 0 ≤ q ∧ q ≤ 100 := by
  unfold stochDAt rollMeanP
  by_cases hw : 3 ≤ i + 1
  · rw [if_pos hw, windowIdx_three i hw]
    rcases stochKAt_nan_or_bounded df (i - 2) hwf with h2 | ⟨a, ha, ha0, ha1⟩
    · left
      simp only [PFloat.sumList, List.map_cons, List.map_nil, List.foldl, h2,
        PFloat.add_nan, PFloat.nan_add, PFloat.nan_div]
    · rcases stochKAt_nan_or_bounded df (i - 1) hwf with h1 | ⟨b, hb, hb0, hb1⟩
      · left
        simp only [PFloat.sumList, List.map_cons, List.map_nil, List.foldl, ha, h1,
          PFloat.add_nan, PFloat.nan_add, PFloat.nan_div]
      · rcases stochKAt_nan_or_bounded df i hwf with h0 | ⟨c, hc, hc0, hc1⟩
        · left
          simp only [PFloat.sumList, List.map_cons, List.map_nil, List.foldl, ha, hb, h0,
            PFloat.add_nan, PFloat.nan_add, PFloat.nan_div]
        · right
          simp only [PFloat.sumList, List.map_cons, List.map_nil, List.foldl, ha, hb, hc]
          refine ⟨(0 + a + b + c) / 3, ?_, ?_, ?_⟩
          · simp [PFloat.add, PFloat.div]
          · exact div_nonneg (by linarith) (by norm_num)
          · rw [div_le_iff₀ (by norm_num : (0 : ℚ) < 3)]
            linarith
  · rw [if_neg hw]
    left
    rfl

/-- Claim C4 counterexample: on the constant 50-candle series the
latest row is ready (50 samples) and the 14-period average loss is 0,
yet the RSI is `NaN` — outside [0, 100] and not equal to 100 — because
`rs = avgGain/avgLoss` is the indeterminate 0/0; %K is `NaN` there
too. -/
theorem claim_C4_counterexample :
    avgLossAt c8Df 49 = .fin 0 ∧
    rsiAt c8Df 49 = PFloat.nan ∧
    PFloat.memIcc 0 100 (rsiAt c8Df 49) = false ∧
    stochKAt c8Df 49 = PFloat.nan := by
  with_unfolding_all decide

/-- Claim C4 amended: once computed, the RSI is either `NaN` (warm-up
rows, or an all-flat window where avgGain = avgLoss = 0) or a finite
value in [0, 100]; when avgLoss = 0 the RSI is 100 exactly when
avgGain > 0, and `NaN` when avgGain = 0; and on candles with
low ≤ close ≤ high, %K and %D are each `NaN` or a finite value in
[0, 100].  (pandas propagates the 0/0 cases silently as `NaN`, which
every strategy comparison then treats as false.) -/
theorem claim_C4_amended_indicator_ranges :
    (∀ (df : List Candle) (i : ℕ),
      rsiAt df i = .nan ∨ ∃ q, rsiAt df i = .fin q ∧ 0 ≤ q ∧ q ≤ 100) ∧
    (∀ (df : List Candle) (i : ℕ) (g : ℚ),
      avgGainAt df i = .fin g → avgLossAt df i = .fin 0 →
      (0 < g → rsiAt df i = .fin 100) ∧ (g = 0 → rsiAt df i = .nan)) ∧
    (∀ (df : List Candle) (i : ℕ),
      (∀ c ∈ df, c.low ≤ c.close ∧ c.close ≤ c.high) →
      (stochKAt df i = .nan ∨ ∃ q, stochKAt df i = .fin q ∧ 0 ≤ q ∧ q ≤ 100) ∧
      (stochDAt df i = .nan ∨ ∃ q, stochDAt df i = .fin q ∧ 0 ≤ q ∧ q ≤ 100)) :=
  ⟨rsiAt_nan_or_bounded,
   rsiAt_of_avgLoss_zero,
   fun df i hwf => ⟨stochKAt_nan_or_bounded df i hwf, stochDAt_nan_or_bounded df i hwf⟩⟩

/-- Witness for the amended C4 on the constant series at the latest
(ready) row. -/
theorem claim_C4_witness :
    rsiAt c8Df 49 = PFloat.nan ∧
    (stochKAt c8Df 49 = PFloat.nan ∨
      ∃ q, stochKAt c8Df 49 = .fin q ∧ 0 ≤ q ∧ q ≤ 100) :=
  ⟨(claim_C4_amended_indicator_ranges.2.1 c8Df 49 0 (by with_unfolding_all decide)
      (by with_unfolding_all decide)).2 rfl,
   (claim_C4_amended_indicator_ranges.2.2 c8Df 49 (by with_unfolding_all decide)).1⟩



/-- Claim C3 counterexample: on `c3Df` (50 rows) the claim's entry
formula is true but the evaluator reports entry = false: the code
requires the CURRENT 20-EMA to exceed the 50-EMA from ten rows back,
not the spec's reversed comparison. -/
theorem claim_C3_counterexample :
    c3Df.length = 50 ∧
    (ada_rsi_signal (calculate_indicators c3Df)).1 = false ∧
    adaEntryPerSpec (calculate_indicators c3Df) = true := by
  with_unfolding_all decide

/-- Claim C3 amended: for every series of at least 50 rows the
oversold-reversal evaluator reports entry = true exactly when the
latest RSI < 35, the latest RSI exceeds the previous row's RSI, the
latest volume ratio > 0.8, and the CURRENT 20-EMA exceeds the 50-EMA
from ten rows back (`df.iloc[-10]` — the spec stated this comparison in
the reverse direction); and exit = true exactly when the latest
RSI > 60. -/
theorem claim_C3_amended_ada_signal (df : List Candle) (h : 50 ≤ df.length) :
    ((ada_rsi_signal (calculate_indicators df)).1 = true ↔
      (PFloat.blt (rsiAt df (df.length - 1)) (.fin 35) = true ∧
       PFloat.blt (rsiAt df (df.length - 2)) (rsiAt df (df.length - 1)) = true ∧
       PFloat.blt (.fin (8 / 10)) (volRatioAt df (df.length - 1)) = true ∧
       ema50At df (df.length - 10) < ema20At df (df.length - 1))) ∧
    ((ada_rsi_signal (calculate_indicators df)).2 = true ↔
      PFloat.blt (.fin 60) (rsiAt df (df.length - 1)) = true) := by
  have hlen : ¬ (calculate_indicators df).length < 50 := by
    rw [calculate_indicators_length]
    omega
  unfold ada_rsi_signal
  rw [if_neg hlen]
  dsimp only
  rw [iloc_calculate_indicators df 1 (by norm_num) (by omega),
    iloc_calculate_indicators df 2 (by norm_num) (by omega),
    iloc_calculate_indicators df 10 (by norm_num) (by omega)]
  simp only [mkRow_rsi, mkRow_volQ, mkRow_ema20, mkRow_ema50]
  constructor
  · simp [Bool.and_eq_true, decide_eq_true_eq, and_assoc]
  · simp

/-- Witness for the amended C3 on the constant 50-row series. -/
theorem claim_C3_witness :
    (50 : ℕ) ≤ c8Df.length ∧
    ((ada_rsi_signal (calculate_indicators c8Df)).2 = true ↔
      PFloat.blt (.fin 60) (rsiAt c8Df (c8Df.length - 1)) = true) :=
  ⟨by decide, (claim_C3_amended_ada_signal c8Df (by decide)).2⟩

end TradingBotSpec
